import Mathlib

/-!
Shallow embedding of `src/download-server.py`, a single-file HTTP download
server for the IslandDAO governance methodology documents, together with
theorems settling the specification's claims about it.

Modelling choices:
* A filesystem is a partial map from file names to byte contents
  (`Fs := String → Option Bytes`); `none` models a missing or unreadable
  file, in which case Python's `open` raises an `OSError`.
* The handler writes to the client socket incrementally
  (`send_response` / `send_header` / `end_headers` flush the status line
  and headers to the unbuffered `wfile` before the backing file is opened),
  so `do_GET` is modelled as producing the list of output events actually
  committed to the client, paired with a flag recording whether an
  exception escaped the handler.
* Bytes are natural numbers below 256; `pyEncode` mirrors CPython's
  `str.encode()` (UTF-8).
-/

/-- A byte sequence, as produced by Python's `bytes`. -/
abbrev Bytes := List Nat

/-- A filesystem: maps a file name to its contents, or `none` when the
file is missing or unreadable (Python's `open` raises). -/
abbrev Fs := String → Option Bytes

/-- One output action of the handler on the client connection, mirroring
the `BaseHTTPRequestHandler` methods called by `do_GET` in
`src/download-server.py`. -/
inductive Event where
  | sendResponse (status : Nat)
  | sendHeader (nm value : String)
  | endHeaders
  | writeBody (data : Bytes)
  | sendError (status : Nat)
  deriving DecidableEq, Repr

/-- UTF-8 encoding of a single code point, as CPython's `str.encode`
produces it. -/
def utf8Bytes (c : Char) : Bytes :=
  let n := c.toNat
  if n < 128 then [n]
  else if n < 2048 then [192 + n / 64, 128 + n % 64]
  else if n < 65536 then [224 + n / 4096, 128 + n / 64 % 64, 128 + n % 64]
  else [240 + n / 262144, 128 + n / 4096 % 64, 128 + n / 64 % 64, 128 + n % 64]

/-- Python's `str.encode()`: UTF-8 bytes of a string. -/
def pyEncode (s : String) : Bytes :=
  (s.data.map utf8Bytes).flatten

/-- `startsWithB sub l` is true when `sub` is an initial segment of `l`. -/
def startsWithB : Bytes → Bytes → Bool
  | [], _ => true
  | _ :: _, [] => false
  | a :: xs, b :: ys => a == b && startsWithB xs ys

/-- `containsBytes sub l` is true when `sub` occurs contiguously in `l`
(Python's `sub in l`). -/
def containsBytes (sub : Bytes) : Bytes → Bool
  | [] => startsWithB sub []
  | b :: l => startsWithB sub (b :: l) || containsBytes sub l

/-- The literal assigned to `html` in the `'/'` branch of `do_GET`
(`src/download-server.py` lines 30-50): a triple-quoted string starting
with a newline, each line indented as in the source, ending in a newline
and twelve spaces. -/
def indexHtml : String :=
  String.intercalate "\n"
    [ ""
    , "            <!DOCTYPE html>"
    , "            <html>"
    , "            <head>"
    , "                <title>IslandDAO Governance Methodology Downloads</title>"
    , "                <style>"
    , "                    body \x7b font-family: Arial, sans-serif; margin: 40px; \x7d"
    , "                    h1 \x7b color: #333; \x7d"
    , "                    a \x7b color: #0066cc; text-decoration: none; display: block; margin: 20px 0; \x7d"
    , "                    a:hover \x7b text-decoration: underline; \x7d"
    , "                </style>"
    , "            </head>"
    , "            <body>"
    , "                <h1>IslandDAO Governance Methodology Downloads</h1>"
    , "                <p>Download the complete methodology documentation:</p>"
    , "                <a href=\"/governance-methodology.txt\">📄 Download Plain Text Version (.txt)</a>"
    , "                <a href=\"/governance-methodology.md\">📄 Download Formatted Version (.md)</a>"
    , "            </body>"
    , "            </html>"
    , "            " ]

/-- `DownloadHandler.do_GET` (`src/download-server.py` lines 7-53).
Returns the events committed to the client and whether an exception
escaped the handler (true exactly when a backing file could not be
opened; the status line and headers have been flushed by `end_headers`
before the `open` call, so they appear in the trace even on failure). -/
def do_GET (fs : Fs) (path : String) : List Event × Bool :=
  if path = "/governance-methodology.txt" then
    let hdrs := [Event.sendResponse 200,
      Event.sendHeader "Content-Type" "text/plain",
      Event.sendHeader "Content-Disposition"
        "attachment; filename=\"islanddao-governance-methodology.txt\"",
      Event.endHeaders]
    match fs "governance-power-methodology.txt" with
    | some bs => (hdrs ++ [Event.writeBody bs], false)
    | none => (hdrs, true)
  else if path = "/governance-methodology.md" then
    let hdrs := [Event.sendResponse 200,
      Event.sendHeader "Content-Type" "text/markdown",
      Event.sendHeader "Content-Disposition"
        "attachment; filename=\"islanddao-governance-methodology.md\"",
      Event.endHeaders]
    match fs "formatted-governance-methodology.md" with
    | some bs => (hdrs ++ [Event.writeBody bs], false)
    | none => (hdrs, true)
  else if path = "/" then
    ([Event.sendResponse 200,
      Event.sendHeader "Content-Type" "text/html",
      Event.endHeaders,
      Event.writeBody (pyEncode indexHtml)], false)
  else
    ([Event.sendError 404], false)

/-- Request dispatch of CPython's `http.server.BaseHTTPRequestHandler.handle_one_request`,
which `DownloadHandler` inherits: the request method `M` is dispatched to
a method `do_M` when one is defined, and otherwise `send_error(501,
"Unsupported method ...")` is called. `DownloadHandler` defines only
`do_GET`; it also inherits `do_HEAD` from `SimpleHTTPRequestHandler`,
whose generic file-serving behaviour lies outside this repository and is
not modelled here (`none`). -/
def handle_one_request (fs : Fs) (method path : String) : Option (List Event × Bool) :=
  if method = "GET" then some (do_GET fs path)
  else if method = "HEAD" then none
  else some ([Event.sendError 501], false)

/-- The server's world: the disk contents visible to the handler. Every
filesystem operation in `do_GET` is an `open(..., 'rb')` read
(`src/download-server.py` lines 14 and 23); the source contains no write
to the filesystem, so handling a request returns the world unchanged. -/
structure World where
  fs : Fs

/-- Handling one request: the handler reads the world and commits events
to the client; the world (disk) component is returned as `do_GET` leaves
it, i.e. unchanged, since the handler only reads. -/
def handleRequest (w : World) (method path : String) :
    World × Option (List Event × Bool) :=
  (w, handle_one_request w.fs method path)

/-- `PORT` (`src/download-server.py` line 55). -/
def PORT : Nat := 8080

/-- The lines printed to standard output at startup
(`src/download-server.py` lines 57-60), with the f-string interpolation
of `PORT` made explicit. -/
def startupLines : List String :=
  [ "Download server running at http://localhost:" ++ toString PORT ++ "/"
  , "Available downloads:"
  , "  - http://localhost:" ++ toString PORT ++ "/governance-methodology.txt"
  , "  - http://localhost:" ++ toString PORT ++ "/governance-methodology.md" ]

/-- A concrete example filesystem used by witnesses: both backing files
present with small distinct contents. -/
def fsEx : Fs := fun nm =>
  if nm = "governance-power-methodology.txt" then some [72, 105, 10]
  else if nm = "formatted-governance-methodology.md" then some [35, 32, 72, 105, 10]
  else none

/-- The empty filesystem: every open fails. -/
def fsNone : Fs := fun _ => none

set_option maxRecDepth 4000

/-- C1: a GET for `/governance-methodology.txt` responds 200 with
Content-Type `text/plain`, the fixed attachment Content-Disposition
header, and a body byte-identical to the backing file
`governance-power-methodology.txt` as read at request time. -/
theorem txt_download_ok (fs : Fs) (bs : Bytes)
    (h : fs "governance-power-methodology.txt" = some bs) :
    do_GET fs "/governance-methodology.txt" =
      ([Event.sendResponse 200,
        Event.sendHeader "Content-Type" "text/plain",
        Event.sendHeader "Content-Disposition"
          "attachment; filename=\"islanddao-governance-methodology.txt\"",
        Event.endHeaders,
        Event.writeBody bs], false) := by
  simp [do_GET, h]

theorem txt_download_ok_witness :
    fsEx "governance-power-methodology.txt" = some [72, 105, 10] ∧
    do_GET fsEx "/governance-methodology.txt" =
      ([Event.sendResponse 200,
        Event.sendHeader "Content-Type" "text/plain",
        Event.sendHeader "Content-Disposition"
          "attachment; filename=\"islanddao-governance-methodology.txt\"",
        Event.endHeaders,
        Event.writeBody [72, 105, 10]], false) :=
  ⟨by decide, txt_download_ok fsEx [72, 105, 10] (by decide)⟩

/-- C2: a GET for `/governance-methodology.md` responds 200 with
Content-Type `text/markdown`, the fixed attachment Content-Disposition
header for the `.md` filename, and a body byte-identical to the backing
file `formatted-governance-methodology.md` as read at request time. -/
theorem md_download_ok (fs : Fs) (bs : Bytes)
    (h : fs "formatted-governance-methodology.md" = some bs) :
    do_GET fs "/governance-methodology.md" =
      ([Event.sendResponse 200,
        Event.sendHeader "Content-Type" "text/markdown",
        Event.sendHeader "Content-Disposition"
          "attachment; filename=\"islanddao-governance-methodology.md\"",
        Event.endHeaders,
        Event.writeBody bs], false) := by
  simp [do_GET, h]

theorem md_download_ok_witness :
    fsEx "formatted-governance-methodology.md" = some [35, 32, 72, 105, 10] ∧
    do_GET fsEx "/governance-methodology.md" =
      ([Event.sendResponse 200,
        Event.sendHeader "Content-Type" "text/markdown",
        Event.sendHeader "Content-Disposition"
          "attachment; filename=\"islanddao-governance-methodology.md\"",
        Event.endHeaders,
        Event.writeBody [35, 32, 72, 105, 10]], false) :=
  ⟨by decide, md_download_ok fsEx [35, 32, 72, 105, 10] (by decide)⟩

/-- C3: a GET for `/` responds 200 with Content-Type `text/html` and the
fixed HTML body, whose bytes contain both literal substrings
`/governance-methodology.txt` and `/governance-methodology.md`. -/
theorem index_page_ok (fs : Fs) :
    do_GET fs "/" =
      ([Event.sendResponse 200,
        Event.sendHeader "Content-Type" "text/html",
        Event.endHeaders,
        Event.writeBody (pyEncode indexHtml)], false) ∧
    containsBytes (pyEncode "/governance-methodology.txt") (pyEncode indexHtml) = true ∧
    containsBytes (pyEncode "/governance-methodology.md") (pyEncode indexHtml) = true :=
  ⟨rfl, by decide, by decide⟩

/-- C4, counterexample: a POST to the known path
`/governance-methodology.txt` is dispatched to no handler and receives a
501 `Unsupported method` error, not the 404 the claim states. -/
theorem post_gives_501 :
    handle_one_request fsEx "POST" "/governance-methodology.txt" =
      some ([Event.sendError 501], false) ∧
    Event.sendError 404 ∉ [Event.sendError 501] := by decide

/-- C4, amended: a request whose method has no `do_*` handler (any
method other than GET and the inherited HEAD, e.g. POST) receives 501
`Unsupported method` from the framework dispatch, whatever its path —
the three known paths included; and a GET whose path matches none of
the three known paths receives 404. -/
theorem unknown_path_404_unsupported_method_501 (fs : Fs) (method p : String)
    (hm : method ≠ "GET" ∧ method ≠ "HEAD") :
    handle_one_request fs method p = some ([Event.sendError 501], false) ∧
    ((p ≠ "/" ∧ p ≠ "/governance-methodology.txt" ∧ p ≠ "/governance-methodology.md") →
      handle_one_request fs "GET" p = some ([Event.sendError 404], false)) := by
  obtain ⟨m1, m2⟩ := hm
  constructor
  · simp [handle_one_request, m1, m2]
  · rintro ⟨h1, h2, h3⟩
    simp [handle_one_request, do_GET, h1, h2, h3]

theorem unknown_path_404_unsupported_method_501_witness :
    ("POST" ≠ "GET" ∧ "POST" ≠ "HEAD") ∧
    (handle_one_request fsEx "POST" "/governance-methodology.md" =
        some ([Event.sendError 501], false) ∧
      (("/governance-methodology.md" ≠ "/" ∧
          "/governance-methodology.md" ≠ "/governance-methodology.txt" ∧
          "/governance-methodology.md" ≠ "/governance-methodology.md") →
        handle_one_request fsEx "GET" "/governance-methodology.md" =
          some ([Event.sendError 404], false))) ∧
    handle_one_request fsEx "POST" "/" = some ([Event.sendError 501], false) :=
  ⟨by decide,
    unknown_path_404_unsupported_method_501 fsEx "POST" "/governance-methodology.md" (by decide),
    (unknown_path_404_unsupported_method_501 fsEx "POST" "/" (by decide)).1⟩

/-- C5, counterexample: with the backing text file unreadable, handling
GET `/governance-methodology.txt` fails (the exception escapes), yet a
part of the success response — the 200 status line and all three headers
— has already been committed to the client, refuting the claim that the
response state is unchanged on error. -/
theorem partial_commit_on_read_failure :
    (do_GET fsNone "/governance-methodology.txt").2 = true ∧
    (do_GET fsNone "/governance-methodology.txt").1 ≠ [] ∧
    (do_GET fsNone "/governance-methodology.txt").1 =
      [Event.sendResponse 200,
       Event.sendHeader "Content-Type" "text/plain",
       Event.sendHeader "Content-Disposition"
         "attachment; filename=\"islanddao-governance-methodology.txt\"",
       Event.endHeaders] := by decide

/-- C5, amended: each request is handled independently (handling one
leaves the server's world unchanged, so no partial state affects later
requests), but when the backing file of one of the two file paths cannot
be read, the status line and headers of the success response have
already been committed: exactly the body write is missing from the
committed trace. -/
theorem requests_independent_headers_committed (p backing : String)
    (hpb : (p, backing) ∈
      [("/governance-methodology.txt", "governance-power-methodology.txt"),
       ("/governance-methodology.md", "formatted-governance-methodology.md")])
    (fs fsOk : Fs) (bs : Bytes)
    (h : fs backing = none) (hOk : fsOk backing = some bs) :
    (handleRequest ⟨fs⟩ "GET" p).1 = ⟨fs⟩ ∧
    (do_GET fs p).2 = true ∧
    (do_GET fs p).1 ++ [Event.writeBody bs] = (do_GET fsOk p).1 := by
  simp only [List.mem_cons, List.mem_singleton, Prod.mk.injEq, List.not_mem_nil, or_false] at hpb
  rcases hpb with ⟨rfl, rfl⟩ | ⟨rfl, rfl⟩ <;>
    exact ⟨rfl, by simp [do_GET, h], by simp [do_GET, h, hOk]⟩

theorem requests_independent_headers_committed_witness :
    (("/governance-methodology.txt", "governance-power-methodology.txt") ∈
      [("/governance-methodology.txt", "governance-power-methodology.txt"),
       ("/governance-methodology.md", "formatted-governance-methodology.md")] ∧
      fsNone "governance-power-methodology.txt" = none ∧
      fsEx "governance-power-methodology.txt" = some [72, 105, 10]) ∧
    (handleRequest ⟨fsNone⟩ "GET" "/governance-methodology.txt").1 = ⟨fsNone⟩ ∧
    (do_GET fsNone "/governance-methodology.txt").2 = true ∧
    (do_GET fsNone "/governance-methodology.txt").1 ++ [Event.writeBody [72, 105, 10]] =
      (do_GET fsEx "/governance-methodology.txt").1 :=
  ⟨⟨by decide, rfl, by decide⟩,
    requests_independent_headers_committed "/governance-methodology.txt"
      "governance-power-methodology.txt" (by decide) fsNone fsEx [72, 105, 10] rfl (by decide)⟩

/-- C6: when the backing file of one of the two file paths is missing or
unreadable, handling the GET fails with the I/O error escaping the
handler, and the handler sends no error response of its own (no
`send_error` event, in particular no 500, appears in the committed
trace). -/
theorem read_failure_raises (p backing : String)
    (hpb : (p, backing) ∈
      [("/governance-methodology.txt", "governance-power-methodology.txt"),
       ("/governance-methodology.md", "formatted-governance-methodology.md")])
    (fs : Fs) (h : fs backing = none) :
    (do_GET fs p).2 = true ∧
    ∀ s, Event.sendError s ∉ (do_GET fs p).1 := by
  simp only [List.mem_cons, List.mem_singleton, Prod.mk.injEq, List.not_mem_nil, or_false] at hpb
  rcases hpb with ⟨rfl, rfl⟩ | ⟨rfl, rfl⟩ <;>
    exact ⟨by simp [do_GET, h], by intro s; simp [do_GET, h]⟩

theorem read_failure_raises_witness :
    (("/governance-methodology.md", "formatted-governance-methodology.md") ∈
      [("/governance-methodology.txt", "governance-power-methodology.txt"),
       ("/governance-methodology.md", "formatted-governance-methodology.md")] ∧
      fsNone "formatted-governance-methodology.md" = none) ∧
    (do_GET fsNone "/governance-methodology.md").2 = true ∧
    Event.sendError 500 ∉ (do_GET fsNone "/governance-methodology.md").1 :=
  ⟨⟨by decide, rfl⟩,
    (read_failure_raises "/governance-methodology.md" "formatted-governance-methodology.md"
        (by decide) fsNone rfl).1,
    (read_failure_raises "/governance-methodology.md" "formatted-governance-methodology.md"
        (by decide) fsNone rfl).2 500⟩

/-- C7: handling a GET is deterministic and stateless: a request leaves
the world unchanged, and a second identical request against the
resulting world produces exactly the same world and response. -/
theorem repeat_get_identical (w : World) (method p : String) :
    (handleRequest w method p).1 = w ∧
    handleRequest (handleRequest w method p).1 method p =
      handleRequest w method p :=
  ⟨rfl, rfl⟩

/-- C8: handling any request leaves the filesystem untouched — in
particular both backing files have the same contents after the request
as before. -/
theorem files_unchanged (w : World) (method p : String) :
    (handleRequest w method p).1.fs "governance-power-methodology.txt" =
      w.fs "governance-power-methodology.txt" ∧
    (handleRequest w method p).1.fs "formatted-governance-methodology.md" =
      w.fs "formatted-governance-methodology.md" ∧
    (handleRequest w method p).1 = w :=
  ⟨rfl, rfl, rfl⟩

/-- C9: the port is the fixed constant 8080 and the startup output
consists of the listening URL line, the `Available downloads:` line, and
the two download URLs, all interpolating that port. -/
theorem port_and_startup :
    PORT = 8080 ∧
    startupLines =
      [ "Download server running at http://localhost:8080/"
      , "Available downloads:"
      , "  - http://localhost:8080/governance-methodology.txt"
      , "  - http://localhost:8080/governance-methodology.md" ] :=
  ⟨rfl, by decide⟩

/-- C10: routing compares the whole request target, query string
included: any path containing a `?` matches none of the three known
paths and receives the 404 response. -/
theorem query_string_404 (fs : Fs) (p : String) (h : Char.ofNat 63 ∈ p.data) :
    do_GET fs p = ([Event.sendError 404], false) := by
  have h1 : p ≠ "/governance-methodology.txt" := by
    intro e; subst e; exact absurd h (by decide)
  have h2 : p ≠ "/governance-methodology.md" := by
    intro e; subst e; exact absurd h (by decide)
  have h3 : p ≠ "/" := by
    intro e; subst e; exact absurd h (by decide)
  simp [do_GET, h1, h2, h3]

theorem query_string_404_witness :
    Char.ofNat 63 ∈ ("/governance-methodology.txt?x=1").data ∧
    do_GET fsEx "/governance-methodology.txt?x=1" = ([Event.sendError 404], false) :=
  ⟨by decide, query_string_404 fsEx "/governance-methodology.txt?x=1" (by decide)⟩
